import Mathlib

/-!
Shallow embedding of `src/app.py` (the "AI CV Matcher" Streamlit app), used to
check the natural-language specification of the repository against the code.

Modelling conventions:
* Python float arithmetic is idealized as exact real arithmetic over `ℝ`;
  `round(x, 2)` is modelled as rounding half-to-even at two decimals.
* External services (OpenRouter chat completions, the Adzuna HTTP API, Twilio
  messaging) are inputs of the model: an `Env` record provides their
  responses, and fallible calls return `Except ProviderError`.
* The `sentence_transformers` embedder is a total function `String → List ℝ`
  (a local model invocation, not a network call).
* `sklearn.metrics.pairwise.cosine_similarity` is embedded together with its
  zero-norm handling: `sklearn.preprocessing.normalize` replaces zero norms
  by 1, so an all-zero vector yields similarity 0 instead of an error.
* Streamlit rendering is modelled as emitted events; buttons are in their
  default (unclicked) state and the optional question box is empty, as on the
  first run of the script.
-/

/-- Record for one job posting, as built by `fetch_adzuna_jobs` and
`fetch_dummy_jobs` in `src/app.py` (dict with keys title, location,
description, url). -/
structure JobPosting where
  title : String
  location : String
  description : String
  url : String
  deriving DecidableEq, Repr

/-- Error raised by an external provider (network, HTTP status, auth, parse);
the payload is the message text carried by the Python exception. -/
structure ProviderError where
  msg : String
  deriving DecidableEq, Repr

/-- Dot product of two real vectors given as lists (the inner product
underlying the sklearn `cosine_similarity`); extra entries of the longer list
are ignored, matching equal-dimension usage in the app. -/
def dotProd : List ℝ → List ℝ → ℝ
  | a :: as, b :: bs => a * b + dotProd as bs
  | _, _ => 0

/-- Squared Euclidean norm of a vector. -/
def normSq (a : List ℝ) : ℝ := dotProd a a

/-- Norm as used by `sklearn.preprocessing.normalize`: zero norms are
replaced by 1 (`norms[norms == 0.0] = 1.0`), so normalization never divides
by zero. -/
noncomputable def safeNorm (a : List ℝ) : ℝ :=
  if normSq a = 0 then 1 else Real.sqrt (normSq a)

/-- Embedding of `sklearn.metrics.pairwise.cosine_similarity` on one pair of
vectors, as called on line 173 of `src/app.py`:
`cosine_similarity([cv_vec], [job_vec])[0][0]`.  It normalizes both rows with
`normalize` (zero norms treated as 1) and takes their dot product. -/
noncomputable def cosine_similarity (a b : List ℝ) : ℝ :=
  dotProd a b / (safeNorm a * safeNorm b)

/-- Rounding of a real to an integer, half-to-even, modelling the tie-breaking
of the Python built-in `round`. -/
noncomputable def roundHalfEven (x : ℝ) : ℤ :=
  if x - ⌊x⌋ < 1 / 2 then ⌊x⌋
  else if 1 / 2 < x - ⌊x⌋ then ⌊x⌋ + 1
  else if 2 ∣ ⌊x⌋ then ⌊x⌋ else ⌊x⌋ + 1

/-- Embedding of the Python call `round(y, 2)` (line 175 of `src/app.py`): round to
the closest multiple of 1/100, ties to the even multiple. -/
noncomputable def pyRound2 (y : ℝ) : ℝ :=
  (roundHalfEven (y * 100) : ℝ) / 100

/-- Entry of the `job_matches` list built on line 175 of `src/app.py`:
a dict `{"job": job, "match_pct": ...}`. -/
structure MatchEntry where
  job : JobPosting
  match_pct : ℝ

/-- Embedding of the matcher loop, lines 170–175 of `src/app.py`: for each
job, embed its description, take the cosine similarity with the CV vector,
boost by 1.2 capped at 1.0, and store the percentage rounded to two decimal
places. -/
noncomputable def rawJobMatches (embed : String → List ℝ) (cv_summary : String)
    (jobs : List JobPosting) : List MatchEntry :=
  let cv_vec := embed cv_summary
  jobs.map (fun job =>
    let job_vec := embed job.description
    let raw_match := cosine_similarity cv_vec job_vec
    let inflated_match := min (raw_match * 1.2) 1.0
    { job := job, match_pct := pyRound2 (inflated_match * 100) })

/-- Comparison used by the sort on line 177 of `src/app.py`:
`sorted(job_matches, key=lambda x: x["match_pct"], reverse=True)` is a stable
sort under the reversed key comparison. -/
noncomputable def matchDesc (x y : MatchEntry) : Bool :=
  decide (y.match_pct ≤ x.match_pct)

/-- Embedding of lines 170–177 of `src/app.py`: build the per-job match
entries, then stably sort them by `match_pct` descending. -/
noncomputable def jobMatches (embed : String → List ℝ) (cv_summary : String)
    (jobs : List JobPosting) : List MatchEntry :=
  (rawJobMatches embed cv_summary jobs).mergeSort matchDesc

/-- Helper for concrete evaluations: `roundHalfEven` is the identity on
integers. -/
theorem roundHalfEven_intCast (n : ℤ) : roundHalfEven (n : ℝ) = n := by
  have h : ((n : ℝ) - ⌊(n : ℝ)⌋) = 0 := by simp
  unfold roundHalfEven
  rw [h]
  norm_num

/-- Helper: lower bound for `roundHalfEven`. -/
theorem roundHalfEven_nonneg {x : ℝ} (hx : 0 ≤ x) : 0 ≤ roundHalfEven x := by
  have h0 : (0 : ℤ) ≤ ⌊x⌋ := Int.le_floor.2 (by simpa using hx)
  unfold roundHalfEven
  split
  · exact h0
  · split
    · omega
    · split
      · exact h0
      · omega

/-- Helper: upper bound for `roundHalfEven`: if `x ≤ n` for an integer `n`,
the rounded value is at most `n`. -/
theorem roundHalfEven_le {x : ℝ} {n : ℤ} (hx : x ≤ n) : roundHalfEven x ≤ n := by
  have hfl : ⌊x⌋ ≤ n := by
    have h2 := Int.floor_le_floor hx
    simpa using h2
  unfold roundHalfEven
  split
  · exact hfl
  · rename_i h1
    push_neg at h1
    have hlt : ⌊x⌋ < n := by
      by_contra hcon
      push_neg at hcon
      have : n ≤ ⌊x⌋ := hcon
      have heq : ⌊x⌋ = n := le_antisymm hfl this
      have : x - ⌊x⌋ ≤ 0 := by
        rw [heq]
        simpa using sub_nonpos.2 hx
      linarith
    split
    · omega
    · split
      · exact hfl
      · omega

/-- Embedding of `re.sub(r"[-•0-9]", "", r)` on line 149 of `src/app.py`:
remove every dash, bullet and decimal digit. -/
def stripRoleMarks (s : String) : String :=
  String.mk (s.data.filter (fun c => ¬ (c = '-' ∨ c = '•' ∨ c.isDigit)))

/-- Embedding of lines 149–151 of `src/app.py`: split the raw keyword text
into lines, strip list markers and whitespace, keep the roles of length 3–40,
and take the first in lowercase, defaulting to "data scientist". -/
def searchKeywordOf (raw_keywords : String) : String :=
  let roles := (raw_keywords.trim.splitOn "\n").map (fun r => (stripRoleMarks r).trim)
  let valid_roles := roles.filter (fun r => 3 ≤ r.length ∧ r.length ≤ 40)
  match valid_roles with
  | [] => "data scientist"
  | r :: _ => r.toLower

/-- Embedding of the Python method `str.title()`: a letter is uppercased when the
previous character is not a letter, lowercased otherwise. -/
def pyTitleGo : Bool → List Char → List Char
  | _, [] => []
  | prevAlpha, c :: cs =>
    (if prevAlpha then c.toLower else c.toUpper) :: pyTitleGo c.isAlpha cs

/-- Python `keyword.title()` as used by `fetch_dummy_jobs`. -/
def pyTitle (s : String) : String := String.mk (pyTitleGo false s.data)

/-- Embedding of `fetch_dummy_jobs` (lines 122–127 of `src/app.py`): the
static fallback list of three jobs built from the search keyword. -/
def fetch_dummy_jobs (keyword : String) : List JobPosting :=
  [ { title := pyTitle keyword ++ " at TechCorp", location := "Remote",
      description := "Join us as a " ++ keyword ++ ".",
      url := "https://example.com/job1" },
    { title := pyTitle keyword ++ " Specialist", location := "New York",
      description := "We\x27re looking for a " ++ keyword ++ " expert.",
      url := "https://example.com/job2" },
    { title := "Lead " ++ pyTitle keyword, location := "London",
      description := "Lead our " ++ keyword ++ " division.",
      url := "https://example.com/job3" } ]

/-- One element of the `results` array of an Adzuna response; each field is
optional because the corresponding key may be missing from the JSON (a
missing key raises `KeyError` in the comprehension on lines 113–118). -/
structure AdzunaRawJob where
  title : Option String
  location_display_name : Option String
  description : Option String
  redirect_url : Option String
  deriving DecidableEq, Repr

/-- Outcome of the Adzuna HTTP request as seen by `fetch_adzuna_jobs`:
`failure` covers a raised network error, a non-2xx status
(`raise_for_status`) and a JSON parse error; `ok results` is the parsed
`results` array (`res.json().get("results", [])`, so a missing key gives
`ok []`). -/
inductive AdzunaResponse where
  | failure
  | ok (results : List AdzunaRawJob)
  deriving DecidableEq, Repr

/-- Field extraction of the comprehension on lines 113–118 of `src/app.py`;
`none` models the `KeyError` raised when a key is absent. -/
def extractJob (j : AdzunaRawJob) : Option JobPosting := do
  let t ← j.title
  let loc ← j.location_display_name
  let d ← j.description
  let u ← j.redirect_url
  pure { title := t, location := loc, description := d, url := u }

/-- Embedding of `fetch_adzuna_jobs` (lines 98–120 of `src/app.py`).  The
whole body is wrapped in `try/except Exception: return []`, so missing
credentials (`hasCreds = false`, a `KeyError`), an HTTP/JSON failure, or a
malformed result entry all yield the empty list; otherwise one `JobPosting`
is built per element of the `results` array.  The request itself asks the API
for `results_per_page = 6`, but the code never truncates the response. -/
def fetch_adzuna_jobs (hasCreds : Bool) (resp : AdzunaResponse) : List JobPosting :=
  if hasCreds then
    match resp with
    | .failure => []
    | .ok results =>
      match results.mapM extractJob with
      | none => []
      | some js => js
  else []

/-- Embedding of lines 162–165 of `src/app.py`: use the fetched jobs, or the
static dummy list when the fetch produced none (`if not jobs:`). -/
def jobsWithFallback (fetched : List JobPosting) (search_keyword : String) : List JobPosting :=
  if fetched.isEmpty then fetch_dummy_jobs search_keyword else fetched

/-- The `country_map` dict of lines 155–158 of `src/app.py`. -/
def country_map : List (String × String) :=
  [("United States", "us"), ("New Zealand", "nz"), ("United Kingdom", "gb"),
   ("Australia", "au"), ("Canada", "ca"), ("India", "in")]

/-- Environment of external collaborators: responses of the OpenRouter LLM
endpoint, the local sentence-transformer embedder, the Adzuna API (as a
function of keyword, country code and location), the Twilio client, and the
float formatting used by the f-string `{match:.2f}`. -/
structure Env where
  deepseekResponse : String → Except ProviderError String
  embedderEncode : String → List ℝ
  adzunaHasCreds : Bool
  adzunaResponse : String → String → String → AdzunaResponse
  twilioSend : String → Except ProviderError Unit
  fmtPct : ℝ → String

/-- Embedding of `ask_deepseek` (lines 13–28 of `src/app.py`): one POST to
the chat-completions endpoint plus response parsing, with NO try/except —
any provider failure propagates to the caller as the `Except.error` case. -/
def ask_deepseek (env : Env) (prompt : String) : Except ProviderError String :=
  env.deepseekResponse prompt

/-- Embedding of `send_whatsapp_alert` (lines 39–42 of `src/app.py`): one
Twilio `messages.create` call, which may fail with a provider error. -/
def send_whatsapp_alert (env : Env) (message : String) : Except ProviderError Unit :=
  env.twilioSend message

/-- A fallible call okCall when it returns `Except.ok`. -/
def okCall {α : Type} (r : Except ProviderError α) : Prop :=
  ∃ a, r = Except.ok a

/-- User-visible effects emitted while rendering one match entry
(lines 180–209 of `src/app.py`). -/
inductive Event where
  | reasoningShown (text : String)
  | whatsappSent
  | whatsappFailed (e : ProviderError)
  deriving DecidableEq, Repr

/-- The reasoning prompt sent for each rendered job (lines 187–190). -/
def reasoningPrompt (cv_summary : String) (entry : MatchEntry) : String :=
  "Given this CV summary:\n" ++ cv_summary ++ "\n\nAnd this job:\n" ++
    entry.job.description ++ "\n\n" ++
    "Why is this a good match? What\x27s missing? Should the candidate apply?"

/-- The WhatsApp message text of line 206. -/
def alertMsg (env : Env) (entry : MatchEntry) : String :=
  "✅ Match: " ++ entry.job.title ++ " (" ++ env.fmtPct entry.match_pct ++
    "%)\nApply: " ++ entry.job.url

/-- Embedding of lines 204–209 of `src/app.py`: when the match percentage is
at least 50, attempt the WhatsApp alert inside try/except — a success shows a
confirmation, a failure shows a warning, and in either case execution
continues. -/
noncomputable def notifyEvents (env : Env) (entry : MatchEntry) : List Event :=
  if 50 ≤ entry.match_pct then
    match send_whatsapp_alert env (alertMsg env entry) with
    | .ok _ => [Event.whatsappSent]
    | .error e => [Event.whatsappFailed e]
  else []

/-- Embedding of one iteration of the rendering loop (lines 180–209): the
reasoning LLM call is NOT wrapped in try/except and its failure propagates;
the WhatsApp block is guarded as in `notifyEvents`.  The "Tailor CV",
"email" and "Auto-Apply" buttons are unclicked and contribute nothing. -/
noncomputable def renderEntry (env : Env) (cv_summary : String)
    (entry : MatchEntry) : Except ProviderError (List Event) :=
  (ask_deepseek env (reasoningPrompt cv_summary entry)).map
    (fun reasoning => Event.reasoningShown reasoning :: notifyEvents env entry)

/-- Embedding of the whole rendering loop over the sorted matches
(lines 180–209 of `src/app.py`). -/
noncomputable def renderLoop (env : Env) (cv_summary : String)
    (entries : List MatchEntry) : Except ProviderError (List (List Event)) :=
  entries.mapM (renderEntry env cv_summary)

/-- The keyword-extraction prompt of lines 140–147 (indentation of the
Python triple-quoted literal elided). -/
def keyword_prompt : String :=
  "From this CV summary, extract the top 3 job roles most relevant to the candidate.\n" ++
  "Prefer roles in artificial intelligence, data science, business analytics, financial analytics, banking analytics, and policy-making.\n" ++
  "Format:\n- Data Scientist\n- AI Consultant\n- Policy Advisor"

/-- Result of one full successful run of the script body. -/
structure AppRun where
  cv_summary : String
  search_keyword : String
  jobs : List JobPosting
  job_matches : List MatchEntry
  events : List (List Event)
  score_response : String

/-- Embedding of the main script body, lines 135–213 of `src/app.py`, for an
uploaded CV whose extracted text is `cv_text`: summarize, extract a search
keyword, fetch jobs with fallback, score and sort the matches, render each
match (with conditional WhatsApp alert), and request the CV quality score.
Every `ask_deepseek` call sits outside any try/except, so its failure aborts
the run; the final Q&A section is skipped because its text input is empty. -/
noncomputable def appFlow (env : Env) (cv_text country_code location : String) :
    Except ProviderError AppRun := do
  let cv_summary ← ask_deepseek env ("Summarize this CV:\n" ++ cv_text)
  let raw_keywords ← ask_deepseek env (keyword_prompt ++ "\nCV Summary:\n" ++ cv_summary)
  let search_keyword := searchKeywordOf raw_keywords
  let fetched := fetch_adzuna_jobs env.adzunaHasCreds
    (env.adzunaResponse search_keyword country_code location)
  let jobs := jobsWithFallback fetched search_keyword
  let job_matches := jobMatches env.embedderEncode cv_summary jobs
  let events ← renderLoop env cv_summary job_matches
  let score_response ← ask_deepseek env
    ("Score this CV out of 100 and explain briefly:\n" ++ cv_summary)
  pure { cv_summary := cv_summary, search_keyword := search_keyword,
         jobs := jobs, job_matches := job_matches, events := events,
         score_response := score_response }

/-- Helper: `pyRound2` at an argument that is an integer number of
hundredths. -/
theorem pyRound2_eq_intCast {y : ℝ} {n : ℤ} (h : y * 100 = (n : ℝ)) :
    pyRound2 y = (n : ℝ) / 100 := by
  unfold pyRound2
  rw [h, roundHalfEven_intCast]

/-- Helper: `pyRound2` maps `[0, ∞)` into `[0, ∞)`. -/
theorem pyRound2_nonneg {y : ℝ} (hy : 0 ≤ y) : 0 ≤ pyRound2 y := by
  unfold pyRound2
  have h := roundHalfEven_nonneg (x := y * 100) (by positivity)
  positivity

/-- Helper: `pyRound2` of a value at most 100 stays at most 100. -/
theorem pyRound2_le_100 {y : ℝ} (hy : y ≤ 100) : pyRound2 y ≤ 100 := by
  unfold pyRound2
  have h : roundHalfEven (y * 100) ≤ (10000 : ℤ) :=
    roundHalfEven_le (by push_cast; linarith)
  have h2 : ((roundHalfEven (y * 100) : ℝ)) ≤ 10000 := by exact_mod_cast h
  linarith

/-- Helper: the score written by the matcher loop for a given job. -/
noncomputable def scoreOf (embed : String → List ℝ) (cv_summary : String)
    (job : JobPosting) : ℝ :=
  pyRound2 (min (cosine_similarity (embed cv_summary) (embed job.description) * 1.2) 1.0 * 100)

/-- Helper: the unsorted match list is the input jobs mapped through the
score computation. -/
theorem rawJobMatches_eq_map (embed : String → List ℝ) (cv_summary : String)
    (jobs : List JobPosting) :
    rawJobMatches embed cv_summary jobs =
      jobs.map (fun job => { job := job, match_pct := scoreOf embed cv_summary job }) := by
  simp [rawJobMatches, scoreOf]

/-- Helper: membership in the sorted match list. -/
theorem mem_jobMatches {embed : String → List ℝ} {cv_summary : String}
    {jobs : List JobPosting} {e : MatchEntry} :
    e ∈ jobMatches embed cv_summary jobs ↔
      ∃ job ∈ jobs, e = { job := job, match_pct := scoreOf embed cv_summary job } := by
  unfold jobMatches
  rw [List.mem_mergeSort, rawJobMatches_eq_map, List.mem_map]
  constructor
  · rintro ⟨job, hj, rfl⟩
    exact ⟨job, hj, rfl⟩
  · rintro ⟨job, hj, rfl⟩
    exact ⟨job, hj, rfl⟩

/-- C1: every score displayed by the matcher is the cosine similarity of the
CV-summary embedding and the job-description embedding, boosted by the
constant 1.2, capped at 1.0, scaled to a percentage and rounded to two
decimal places; moreover the output processes exactly the input jobs. -/
theorem matcher_score_formula (embed : String → List ℝ) (cv_summary : String)
    (jobs : List JobPosting) :
    (∀ e ∈ jobMatches embed cv_summary jobs,
        e.match_pct = pyRound2 (min (cosine_similarity (embed cv_summary)
          (embed e.job.description) * 1.2) 1.0 * 100)) ∧
      ((jobMatches embed cv_summary jobs).map MatchEntry.job).Perm jobs := by
  constructor
  · intro e he
    obtain ⟨job, _, rfl⟩ := mem_jobMatches.1 he
    rfl
  · have hperm := (List.mergeSort_perm (rawJobMatches embed cv_summary jobs) matchDesc).map
      MatchEntry.job
    refine hperm.trans ?_
    rw [rawJobMatches_eq_map, List.map_map]
    have hid : (MatchEntry.job ∘ fun job =>
        ({ job := job, match_pct := scoreOf embed cv_summary job } : MatchEntry)) = id := rfl
    rw [hid, List.map_id]

/-- Concrete job postings used as witness inputs. -/
def jobA : JobPosting :=
  { title := "AI Engineer", location := "Remote", description := "descA", url := "urlA" }

/-- Second concrete job posting used as witness input. -/
def jobB : JobPosting :=
  { title := "Data Analyst", location := "NY", description := "descB", url := "urlB" }

/-- Witness embedder mapping every string to the unit vector `[1]`. -/
noncomputable def embedOne : String → List ℝ := fun _ => [1]

/-- Helper: concrete evaluation of the matcher on `embedOne`. -/
theorem jobMatches_embedOne (cv : String) (job : JobPosting) :
    jobMatches embedOne cv [job] = [{ job := job, match_pct := 100 }] := by
  have h : rawJobMatches embedOne cv [job] = [{ job := job, match_pct := 100 }] := by
    simp [rawJobMatches, embedOne, cosine_similarity, safeNorm, normSq, dotProd]
    rw [pyRound2_eq_intCast (n := 10000) (by norm_num)]
    norm_num
  simp [jobMatches, h]

/-- Witness for C1: with the constant embedder and one job, the sorted output
consists of that job with score 100, and the formula holds there. -/
theorem matcher_score_formula_witness :
    ({ job := jobA, match_pct := 100 } : MatchEntry).match_pct =
      pyRound2 (min (cosine_similarity (embedOne "my cv")
        (embedOne jobA.description) * 1.2) 1.0 * 100) :=
  (matcher_score_formula embedOne "my cv" [jobA]).1
    { job := jobA, match_pct := 100 }
    (by rw [jobMatches_embedOne]; exact List.mem_singleton.2 rfl)

/-- Embedder used to exhibit a negative similarity: the CV summary maps to
`[1]` and every job description to `[-1]`. -/
noncomputable def embedNeg : String → List ℝ :=
  fun s => if s = "my cv" then [1] else [-1]

/-- Counterexample for C2: with an embedding output of `[1]` for the CV and
`[-1]` for the job description the cosine similarity is `-1`, and the
adjusted score produced by the matcher is `-120`, outside `[0, 100]`. -/
theorem adjusted_score_range_counterexample :
    jobMatches embedNeg "my cv" [jobA] = [{ job := jobA, match_pct := -120 }] ∧
      ((-120 : ℝ) < 0) := by
  constructor
  · have h : rawJobMatches embedNeg "my cv" [jobA] =
        [{ job := jobA, match_pct := -120 }] := by
      have hcv : embedNeg "my cv" = [1] := by simp [embedNeg]
      have hjob : embedNeg jobA.description = [-1] := by
        simp [embedNeg, jobA]
      simp only [rawJobMatches, List.map_cons, List.map_nil, hcv, hjob]
      have hcos : cosine_similarity [1] [-1] = -1 := by
        simp [cosine_similarity, safeNorm, normSq, dotProd]
      rw [hcos]
      rw [pyRound2_eq_intCast (n := -12000) (by norm_num)]
      norm_num
    simp [jobMatches, h]
  · norm_num

/-- C2 (amended): every adjusted score is at most 100, and is nonnegative
whenever the underlying cosine similarity is nonnegative; the unconditional
lower bound 0 fails because the code never clamps negative similarities. -/
theorem adjusted_score_range (embed : String → List ℝ) (cv_summary : String)
    (jobs : List JobPosting) :
    ∀ e ∈ jobMatches embed cv_summary jobs,
      e.match_pct ≤ 100 ∧
        (0 ≤ cosine_similarity (embed cv_summary) (embed e.job.description) →
          0 ≤ e.match_pct) := by
  intro e he
  obtain ⟨job, _, rfl⟩ := mem_jobMatches.1 he
  constructor
  · show scoreOf embed cv_summary job ≤ 100
    unfold scoreOf
    apply pyRound2_le_100
    have h1 : min (cosine_similarity (embed cv_summary) (embed job.description) * 1.2) 1.0 ≤ 1.0 :=
      min_le_right _ _
    nlinarith
  · intro hcos
    show (0 : ℝ) ≤ scoreOf embed cv_summary job
    unfold scoreOf
    apply pyRound2_nonneg
    have h1 : (0 : ℝ) ≤ min (cosine_similarity (embed cv_summary)
        (embed job.description) * 1.2) 1.0 := by
      apply le_min
      · nlinarith
      · norm_num
    nlinarith

/-- Witness for C2 (amended): the bounds applied to a concrete run. -/
theorem adjusted_score_range_witness :
    ({ job := jobA, match_pct := 100 } : MatchEntry).match_pct ≤ 100 ∧
      (0 ≤ cosine_similarity (embedOne "my cv") (embedOne jobA.description) →
        0 ≤ ({ job := jobA, match_pct := 100 } : MatchEntry).match_pct) :=
  adjusted_score_range embedOne "my cv" [jobA]
    { job := jobA, match_pct := 100 }
    (by rw [jobMatches_embedOne]; exact List.mem_singleton.2 rfl)

/-- Counterexample for C3: on the empty CV summary the matcher does not fail
with any error; it returns a normal (here even full-score) result for the
job, because `src/app.py` has no empty-input validation at all. -/
theorem empty_summary_counterexample :
    jobMatches embedOne "" [jobA] = [{ job := jobA, match_pct := 100 }] :=
  jobMatches_embedOne "" jobA

/-- C3 (amended): the matcher performs no validation of the CV summary.  On
an empty (or any other) summary it embeds the string like any other text and
returns one match result per job instead of signalling an error. -/
theorem empty_summary_no_validation (embed : String → List ℝ)
    (jobs : List JobPosting) :
    (jobMatches embed "" jobs).length = jobs.length := by
  simp [jobMatches, rawJobMatches]

/-- C6: on an empty job list the matcher returns the empty result list (and,
being a total function in the embedding, signals no error). -/
theorem empty_job_list (embed : String → List ℝ) (cv_summary : String) :
    jobMatches embed cv_summary [] = [] := by
  simp [jobMatches, rawJobMatches]

/-- Helper: the descending comparison is transitive. -/
theorem matchDesc_trans (a b c : MatchEntry) :
    matchDesc a b → matchDesc b c → matchDesc a c := by
  simp only [matchDesc, decide_eq_true_eq]
  exact fun h1 h2 => le_trans h2 h1

/-- Helper: the descending comparison is total. -/
theorem matchDesc_total (a b : MatchEntry) : matchDesc a b || matchDesc b a := by
  simp only [matchDesc, Bool.or_eq_true, decide_eq_true_eq]
  exact le_total b.match_pct a.match_pct

/-- C5: the matcher output is sorted by adjusted score in descending order,
and the sort is stable — two entries of the unsorted per-job list with equal
scores keep their relative order in the output. -/
theorem matcher_sorted_stable (embed : String → List ℝ) (cv_summary : String)
    (jobs : List JobPosting) :
    (∀ (i j : ℕ) (hi : i < (jobMatches embed cv_summary jobs).length)
        (hj : j < (jobMatches embed cv_summary jobs).length), i < j →
        ((jobMatches embed cv_summary jobs).get ⟨j, hj⟩).match_pct ≤
          ((jobMatches embed cv_summary jobs).get ⟨i, hi⟩).match_pct) ∧
      (∀ a b : MatchEntry, a.match_pct = b.match_pct →
        [a, b].Sublist (rawJobMatches embed cv_summary jobs) →
        [a, b].Sublist (jobMatches embed cv_summary jobs)) := by
  constructor
  · intro i j hi hj hij
    have hp := List.sorted_mergeSort matchDesc_trans matchDesc_total
      (rawJobMatches embed cv_summary jobs)
    rw [List.pairwise_iff_getElem] at hp
    have := hp i j (by simpa [jobMatches] using hi) (by simpa [jobMatches] using hj) hij
    simpa [jobMatches, matchDesc, List.get_eq_getElem] using this
  · intro a b heq hsub
    exact List.pair_sublist_mergeSort matchDesc_trans matchDesc_total
      (by simp [matchDesc, heq]) hsub

/-- Helper: with the constant embedder every job scores 100. -/
theorem rawJobMatches_embedOne (cv : String) (jobs : List JobPosting) :
    rawJobMatches embedOne cv jobs =
      jobs.map (fun j => { job := j, match_pct := 100 }) := by
  have hs : ∀ j : JobPosting, scoreOf embedOne cv j = 100 := by
    intro j
    unfold scoreOf
    have hcos : cosine_similarity (embedOne cv) (embedOne j.description) = 1 := by
      simp [embedOne, cosine_similarity, safeNorm, normSq, dotProd]
    rw [hcos, pyRound2_eq_intCast (n := 10000) (by norm_num)]
    norm_num
  rw [rawJobMatches_eq_map]
  simp [hs]

/-- Helper: concrete two-job evaluation of the sorted matcher output. -/
theorem jobMatches_embedOne_pair :
    jobMatches embedOne "my cv" [jobA, jobB] =
      [{ job := jobA, match_pct := 100 }, { job := jobB, match_pct := 100 }] := by
  unfold jobMatches
  rw [rawJobMatches_embedOne]
  simp only [List.map_cons, List.map_nil]
  apply List.mergeSort_of_sorted
  simp [List.pairwise_cons, matchDesc]

/-- Witness for C5: on a concrete two-job run the first displayed score
dominates the second, and the two equal-score entries keep their input
order. -/
theorem matcher_sorted_stable_witness :
    ((jobMatches embedOne "my cv" [jobA, jobB]).get
        ⟨1, by rw [jobMatches_embedOne_pair]; decide⟩).match_pct ≤
      ((jobMatches embedOne "my cv" [jobA, jobB]).get
        ⟨0, by rw [jobMatches_embedOne_pair]; decide⟩).match_pct ∧
    [({ job := jobA, match_pct := 100 } : MatchEntry),
        { job := jobB, match_pct := 100 }].Sublist
      (jobMatches embedOne "my cv" [jobA, jobB]) := by
  refine ⟨(matcher_sorted_stable embedOne "my cv" [jobA, jobB]).1 0 1 _ _ (by decide),
    (matcher_sorted_stable embedOne "my cv" [jobA, jobB]).2 _ _ rfl ?_⟩
  rw [rawJobMatches_embedOne]
  simp only [List.map_cons, List.map_nil]
  exact List.Sublist.refl _

/-- C7: the static fallback list is used exactly when the live fetch
produced no postings (lines 162–165 of `src/app.py`). -/
theorem fallback_iff_empty (fetched : List JobPosting) (search_keyword : String) :
    (fetched = [] → jobsWithFallback fetched search_keyword =
      fetch_dummy_jobs search_keyword) ∧
    (fetched ≠ [] → jobsWithFallback fetched search_keyword = fetched) := by
  constructor
  · rintro rfl
    simp [jobsWithFallback]
  · intro h
    simp [jobsWithFallback, h]

/-- Witness for C7: both directions at concrete inputs. -/
theorem fallback_iff_empty_witness :
    jobsWithFallback [] "ai" = fetch_dummy_jobs "ai" ∧
      jobsWithFallback [jobA] "ai" = [jobA] :=
  ⟨(fallback_iff_empty [] "ai").1 rfl,
   (fallback_iff_empty [jobA] "ai").2 (by simp)⟩

/-- Helper: a dot product of a vector with itself is nonnegative. -/
theorem dotProd_self_nonneg (a : List ℝ) : 0 ≤ dotProd a a := by
  induction a with
  | nil => simp [dotProd]
  | cons x xs ih =>
    have h : dotProd (x :: xs) (x :: xs) = x * x + dotProd xs xs := rfl
    rw [h]
    nlinarith [mul_self_nonneg x]

/-- Helper: a vector of zero squared norm has zero dot product with any
vector. -/
theorem dotProd_eq_zero_left : ∀ (a b : List ℝ), dotProd a a = 0 → dotProd a b = 0
  | [], b, _ => by cases b <;> simp [dotProd]
  | x :: xs, [], _ => by simp [dotProd]
  | x :: xs, y :: ys, h => by
    have h1 : dotProd (x :: xs) (x :: xs) = x * x + dotProd xs xs := rfl
    rw [h1] at h
    have h2 := dotProd_self_nonneg xs
    have h3 := mul_self_nonneg x
    have hxx : x * x = 0 := le_antisymm (by linarith) h3
    have hx : x = 0 := mul_self_eq_zero.mp hxx
    have hxs : dotProd xs xs = 0 := by linarith
    have h4 : dotProd (x :: xs) (y :: ys) = x * y + dotProd xs ys := rfl
    rw [h4, hx, dotProd_eq_zero_left xs ys hxs]
    ring

/-- Helper: the dot product is commutative. -/
theorem dotProd_comm : ∀ (a b : List ℝ), dotProd a b = dotProd b a
  | [], [] => rfl
  | [], _ :: _ => by simp [dotProd]
  | _ :: _, [] => by simp [dotProd]
  | x :: xs, y :: ys => by
    have h1 : dotProd (x :: xs) (y :: ys) = x * y + dotProd xs ys := rfl
    have h2 : dotProd (y :: ys) (x :: xs) = y * x + dotProd ys xs := rfl
    rw [h1, h2, dotProd_comm xs ys]
    ring

/-- C8 (amended): the similarity routine computes `(a·b)/(‖a‖‖b‖)` when both
vectors have nonzero magnitude; when either magnitude is zero it returns 0
(the sklearn library treats zero norms as 1) instead of failing, and the
matcher adds no guard of its own. -/
theorem cosine_zero_norm (a b : List ℝ) :
    ((normSq a = 0 ∨ normSq b = 0) → cosine_similarity a b = 0) ∧
    (normSq a ≠ 0 → normSq b ≠ 0 →
      cosine_similarity a b =
        dotProd a b / (Real.sqrt (normSq a) * Real.sqrt (normSq b))) := by
  constructor
  · intro h
    have hd : dotProd a b = 0 := by
      cases h with
      | inl ha => exact dotProd_eq_zero_left a b ha
      | inr hb =>
        rw [dotProd_comm]
        exact dotProd_eq_zero_left b a hb
    simp [cosine_similarity, hd]
  · intro ha hb
    simp [cosine_similarity, safeNorm, ha, hb]

/-- Witness for C8 (amended): both branches at concrete vectors. -/
theorem cosine_zero_norm_witness :
    cosine_similarity [0] [5] = 0 ∧
      cosine_similarity [1] [2] =
        dotProd [1] [2] / (Real.sqrt (normSq [1]) * Real.sqrt (normSq [2])) :=
  ⟨(cosine_zero_norm [0] [5]).1 (Or.inl (by simp [normSq, dotProd])),
   (cosine_zero_norm [1] [2]).2 (by norm_num [normSq, dotProd])
     (by norm_num [normSq, dotProd])⟩

/-- Embedder sending the CV summary to `[1]` and every job description to
the all-zero vector `[0]`. -/
noncomputable def embedZeroJob : String → List ℝ :=
  fun s => if s = "my cv" then [1] else [0]

/-- Counterexample for C8: on a zero-magnitude job vector the computation
does not fail with a DivisionByZero error and the matcher does not guard —
the similarity silently evaluates to 0 and a normal scored result is
returned. -/
theorem cosine_divzero_counterexample :
    cosine_similarity [1] [0] = 0 ∧
      jobMatches embedZeroJob "my cv" [jobA] = [{ job := jobA, match_pct := 0 }] := by
  have hcos : cosine_similarity [1] [0] = 0 := by
    simp [cosine_similarity, safeNorm, normSq, dotProd]
  refine ⟨hcos, ?_⟩
  have h : rawJobMatches embedZeroJob "my cv" [jobA] =
      [{ job := jobA, match_pct := 0 }] := by
    have hcv : embedZeroJob "my cv" = [1] := by simp [embedZeroJob]
    have hjob : embedZeroJob jobA.description = [0] := by simp [embedZeroJob, jobA]
    simp only [rawJobMatches, List.map_cons, List.map_nil, hcv, hjob, hcos]
    rw [pyRound2_eq_intCast (n := 0) (by norm_num)]
    norm_num
  simp [jobMatches, h]

/-- Helper: bind of a successful `Except` computation. -/
theorem except_ok_bind {α β : Type} (a : α) (g : α → Except ProviderError β) :
    (Except.ok a >>= g) = g a := rfl

/-- Helper: bind of a failed `Except` computation. -/
theorem except_error_bind {α β : Type} (er : ProviderError)
    (g : α → Except ProviderError β) :
    ((Except.error er : Except ProviderError α) >>= g) = Except.error er := rfl

/-- Helper: `pure` for the `Except` monad. -/
theorem except_pure {α : Type} (a : α) :
    (pure a : Except ProviderError α) = Except.ok a := rfl

/-- Helper: `Except.map` on a success. -/
theorem except_map_ok {α β : Type} (g : α → β) (a : α) :
    (Except.ok a : Except ProviderError α).map g = Except.ok (g a) := rfl

/-- Helper: a successful `mapM` over `Except` succeeds elementwise, in
order. -/
theorem mapM_ok_spec {α β : Type} (f : α → Except ProviderError β) :
    ∀ (l : List α) (res : List β), l.mapM f = Except.ok res →
      res.length = l.length ∧
      ∀ (i : ℕ) (hi : i < res.length) (hi' : i < l.length),
        f (l.get ⟨i, hi'⟩) = Except.ok (res.get ⟨i, hi⟩)
  | [], res, h => by
    simp only [List.mapM_nil, except_pure] at h
    cases h
    exact ⟨rfl, fun i hi hi' => absurd hi (by simp)⟩
  | a :: as, res, h => by
    rw [List.mapM_cons] at h
    cases hfa : f a with
    | error er =>
      rw [hfa, except_error_bind] at h
      cases h
    | ok b =>
      rw [hfa, except_ok_bind] at h
      cases hrest : as.mapM f with
      | error er =>
        rw [hrest, except_error_bind] at h
        cases h
      | ok bs =>
        rw [hrest, except_ok_bind, except_pure] at h
        cases h
        obtain ⟨hlen, hidx⟩ := mapM_ok_spec f as bs hrest
        refine ⟨by simp [hlen], ?_⟩
        intro i hi hi'
        cases i with
        | zero => simpa using hfa
        | succ n =>
          have hn : n < bs.length := by simpa using hi
          have hn' : n < as.length := by simpa using hi'
          simpa using hidx n hn hn'

/-- Helper: success characterization of one rendering step. -/
theorem renderEntry_ok_iff {env : Env} {cv_summary : String} {entry : MatchEntry}
    {evts : List Event} :
    renderEntry env cv_summary entry = Except.ok evts ↔
      ∃ r, ask_deepseek env (reasoningPrompt cv_summary entry) = Except.ok r ∧
        evts = Event.reasoningShown r :: notifyEvents env entry := by
  unfold renderEntry
  cases h : ask_deepseek env (reasoningPrompt cv_summary entry) with
  | ok r => simp [Except.map, eq_comm]
  | error er => simp [Except.map]

/-- Helper: the rendering loop succeeds whenever every LLM call does,
regardless of Twilio outcomes. -/
theorem renderLoop_ok (env : Env) (cv_summary : String) :
    ∀ entries : List MatchEntry, (∀ p, okCall (ask_deepseek env p)) →
      okCall (renderLoop env cv_summary entries)
  | [], _ => ⟨[], by unfold renderLoop; rw [List.mapM_nil]; rfl⟩
  | e :: es, hp => by
    obtain ⟨r, hr⟩ := hp (reasoningPrompt cv_summary e)
    obtain ⟨res, hres⟩ := renderLoop_ok env cv_summary es hp
    have hre : renderEntry env cv_summary e =
        Except.ok (Event.reasoningShown r :: notifyEvents env e) := by
      unfold renderEntry
      rw [hr, except_map_ok]
    refine ⟨(Event.reasoningShown r :: notifyEvents env e) :: res, ?_⟩
    unfold renderLoop at hres ⊢
    rw [List.mapM_cons, hre, except_ok_bind, hres, except_ok_bind, except_pure]

/-- C9: in a successfully rendered run, a WhatsApp notification is attempted
for an entry exactly when its adjusted score is at least 50; a failing
notification shows up as a warning event for that entry while every entry is
still rendered; and notification failures never make the loop itself fail —
only LLM failures can. -/
theorem whatsapp_threshold (env : Env) (cv_summary : String)
    (entries : List MatchEntry) :
    ((∀ p, okCall (ask_deepseek env p)) → okCall (renderLoop env cv_summary entries)) ∧
    (∀ res, renderLoop env cv_summary entries = Except.ok res →
      res.length = entries.length ∧
      ∀ (i : ℕ) (hi : i < res.length) (hi' : i < entries.length),
        ((Event.whatsappSent ∈ res.get ⟨i, hi⟩ ∨
            ∃ er, Event.whatsappFailed er ∈ res.get ⟨i, hi⟩) ↔
          50 ≤ (entries.get ⟨i, hi'⟩).match_pct) ∧
        (∀ er, 50 ≤ (entries.get ⟨i, hi'⟩).match_pct →
          send_whatsapp_alert env (alertMsg env (entries.get ⟨i, hi'⟩)) =
            Except.error er →
          Event.whatsappFailed er ∈ res.get ⟨i, hi⟩)) := by
  constructor
  · exact renderLoop_ok env cv_summary entries
  · intro res hres
    obtain ⟨hlen, hidx⟩ := mapM_ok_spec (renderEntry env cv_summary) entries res hres
    refine ⟨hlen, ?_⟩
    intro i hi hi'
    obtain ⟨r, hr, hevts⟩ := renderEntry_ok_iff.1 (hidx i hi hi')
    rw [hevts]
    simp only [List.get_eq_getElem]
    constructor
    · by_cases h50 : 50 ≤ entries[i].match_pct
      · cases hsend : send_whatsapp_alert env (alertMsg env entries[i]) with
        | ok u => simp [notifyEvents, h50, hsend]
        | error er => simp [notifyEvents, h50, hsend]
      · simp [notifyEvents, h50]
    · intro er h50 hsend
      simp [notifyEvents, h50, hsend]

/-- Witness environment: LLM always answers, Twilio always fails. -/
noncomputable def envNotify : Env :=
  { deepseekResponse := fun _ => Except.ok "why",
    embedderEncode := fun _ => [1],
    adzunaHasCreds := false,
    adzunaResponse := fun _ _ _ => AdzunaResponse.failure,
    twilioSend := fun _ => Except.error { msg := "twilio down" },
    fmtPct := fun _ => "60.00" }

/-- Concrete match entry with an adjusted score of 60. -/
noncomputable def entry60 : MatchEntry := { job := jobA, match_pct := 60 }

/-- Helper: concrete evaluation of the rendering loop in `envNotify`. -/
theorem renderLoop_envNotify :
    renderLoop envNotify "my cv" [entry60] =
      Except.ok [[Event.reasoningShown "why",
        Event.whatsappFailed { msg := "twilio down" }]] := by
  have hn : notifyEvents envNotify entry60 =
      [Event.whatsappFailed { msg := "twilio down" }] := by
    unfold notifyEvents
    rw [if_pos (show (50 : ℝ) ≤ entry60.match_pct by norm_num [entry60])]
    rfl
  have hone : renderLoop envNotify "my cv" [entry60] =
      Except.ok [Event.reasoningShown "why" :: notifyEvents envNotify entry60] := by
    unfold renderLoop
    rw [List.mapM_cons, List.mapM_nil]
    rfl
  rw [hone, hn]

/-- Witness for C9: in the concrete failing-Twilio run, every entry is
rendered and the 60-percent entry carries the warning event. -/
theorem whatsapp_threshold_witness :
    ([[Event.reasoningShown "why",
        Event.whatsappFailed { msg := "twilio down" }]] : List (List Event)).length =
      ([entry60] : List MatchEntry).length ∧
    Event.whatsappFailed { msg := "twilio down" } ∈
      ([Event.reasoningShown "why",
        Event.whatsappFailed { msg := "twilio down" }] : List Event) := by
  have h := (whatsapp_threshold envNotify "my cv" [entry60]).2
    [[Event.reasoningShown "why", Event.whatsappFailed { msg := "twilio down" }]]
    renderLoop_envNotify
  refine ⟨h.1, ?_⟩
  have h2 := (h.2 0 (by decide) (by decide)).2 { msg := "twilio down" }
    (by norm_num [entry60]) rfl
  exact h2

/-- C4 (amended): job-search failures are absorbed by `fetch_adzuna_jobs`
(empty list, triggering the fallback) and WhatsApp failures are absorbed by
the warning branch, so the whole run succeeds whenever every LLM call
succeeds — but an LLM failure is NOT caught anywhere: a failing
summarization call aborts the entire flow with its provider error. -/
theorem provider_failures (env : Env) (cv_text country_code location : String) :
    ((∀ p, okCall (ask_deepseek env p)) →
      okCall (appFlow env cv_text country_code location)) ∧
    (∀ er, ask_deepseek env ("Summarize this CV:\n" ++ cv_text) = Except.error er →
      appFlow env cv_text country_code location = Except.error er) := by
  constructor
  · intro hp
    obtain ⟨s1, h1⟩ := hp ("Summarize this CV:\n" ++ cv_text)
    obtain ⟨s2, h2⟩ := hp (keyword_prompt ++ "\nCV Summary:\n" ++ s1)
    obtain ⟨evs, hevs⟩ := renderLoop_ok env s1
      (jobMatches env.embedderEncode s1
        (jobsWithFallback
          (fetch_adzuna_jobs env.adzunaHasCreds
            (env.adzunaResponse (searchKeywordOf s2) country_code location))
          (searchKeywordOf s2)))
      hp
    obtain ⟨s4, h4⟩ := hp ("Score this CV out of 100 and explain briefly:\n" ++ s1)
    refine ⟨AppRun.mk s1 (searchKeywordOf s2)
      (jobsWithFallback
        (fetch_adzuna_jobs env.adzunaHasCreds
          (env.adzunaResponse (searchKeywordOf s2) country_code location))
        (searchKeywordOf s2))
      (jobMatches env.embedderEncode s1
        (jobsWithFallback
          (fetch_adzuna_jobs env.adzunaHasCreds
            (env.adzunaResponse (searchKeywordOf s2) country_code location))
          (searchKeywordOf s2)))
      evs s4, ?_⟩
    unfold appFlow
    simp only [h1, except_ok_bind, h2, hevs, h4, except_pure]
  · intro er h
    unfold appFlow
    rw [h, except_error_bind]

/-- Environment whose LLM endpoint always fails with a rate-limit error. -/
noncomputable def envBadLLM : Env :=
  { deepseekResponse := fun _ => Except.error { msg := "rate limit" },
    embedderEncode := fun _ => [1],
    adzunaHasCreds := true,
    adzunaResponse := fun _ _ _ => AdzunaResponse.failure,
    twilioSend := fun _ => Except.ok (),
    fmtPct := fun _ => "0.00" }

/-- Counterexample for C4: a failing LLM summarization call is fatal — the
flow aborts with the provider error instead of surfacing a message and
continuing, because `ask_deepseek` is called with no try/except. -/
theorem llm_failure_aborts_counterexample :
    appFlow envBadLLM "cv text" "us" "" = Except.error { msg := "rate limit" } := by
  have h : ask_deepseek envBadLLM ("Summarize this CV:\n" ++ "cv text") =
      Except.error { msg := "rate limit" } := rfl
  unfold appFlow
  rw [h, except_error_bind]

/-- Environment whose LLM always answers but whose job search and Twilio
calls always fail. -/
noncomputable def envAllOk : Env :=
  { deepseekResponse := fun _ => Except.ok "summary",
    embedderEncode := fun _ => [1],
    adzunaHasCreds := false,
    adzunaResponse := fun _ _ _ => AdzunaResponse.failure,
    twilioSend := fun _ => Except.error { msg := "twilio down" },
    fmtPct := fun _ => "100.00" }

/-- Witness for C4 (amended): with every LLM call succeeding the whole run
succeeds even though the job search and Twilio fail, and with the failing
LLM the whole run is the provider error. -/
theorem provider_failures_witness :
    okCall (appFlow envAllOk "cv text" "us" "") ∧
      appFlow envBadLLM "cv text" "us" "" = Except.error { msg := "rate limit" } :=
  ⟨(provider_failures envAllOk "cv text" "us" "").1 (fun _ => ⟨"summary", rfl⟩),
   (provider_failures envBadLLM "cv text" "us" "").2 { msg := "rate limit" } rfl⟩

/-- Adzuna raw result with every field present. -/
def rawGood : AdzunaRawJob :=
  { title := some "T", location_display_name := some "L",
    description := some "D", redirect_url := some "U" }

/-- Adzuna raw result with every field missing. -/
def rawBad : AdzunaRawJob :=
  { title := none, location_display_name := none,
    description := none, redirect_url := none }

/-- Counterexample for C10: `fetch_adzuna_jobs` performs no client-side
truncation; a response carrying seven results produces seven postings, more
than the six the claim promises (the six-per-page bound is only a request
parameter sent to the API). -/
theorem adzuna_seven_counterexample :
    (fetch_adzuna_jobs true (AdzunaResponse.ok (List.replicate 7 rawGood))).length = 7 ∧
      6 < 7 := ⟨rfl, by norm_num⟩

/-- C10 (amended): `fetch_adzuna_jobs` never raises: missing credentials, an
HTTP/JSON failure, or a malformed result entry all yield the empty list, and
on a well-formed response it returns exactly one posting (with all four
fields) per result in the response — bounded by 6 only insofar as the API
honours the requested `results_per_page`. -/
theorem adzuna_never_raises (resp : AdzunaResponse) (results : List AdzunaRawJob)
    (js : List JobPosting) :
    fetch_adzuna_jobs false resp = [] ∧
    fetch_adzuna_jobs true AdzunaResponse.failure = [] ∧
    (results.mapM extractJob = none →
      fetch_adzuna_jobs true (AdzunaResponse.ok results) = []) ∧
    (results.mapM extractJob = some js →
      fetch_adzuna_jobs true (AdzunaResponse.ok results) = js) := by
  refine ⟨rfl, rfl, ?_, ?_⟩
  · intro h
    show (match results.mapM extractJob with
      | none => ([] : List JobPosting)
      | some js => js) = []
    rw [h]
  · intro h
    show (match results.mapM extractJob with
      | none => ([] : List JobPosting)
      | some js => js) = js
    rw [h]

/-- Witness for C10 (amended): all branches at concrete inputs. -/
theorem adzuna_never_raises_witness :
    fetch_adzuna_jobs false AdzunaResponse.failure = [] ∧
    fetch_adzuna_jobs true (AdzunaResponse.ok [rawBad]) = [] ∧
    fetch_adzuna_jobs true (AdzunaResponse.ok [rawGood]) =
      [{ title := "T", location := "L", description := "D", url := "U" }] :=
  ⟨(adzuna_never_raises AdzunaResponse.failure [rawBad] []).1,
   (adzuna_never_raises AdzunaResponse.failure [rawBad] []).2.2.1 rfl,
   (adzuna_never_raises AdzunaResponse.failure [rawGood]
     [{ title := "T", location := "L", description := "D", url := "U" }]).2.2.2 rfl⟩
